import Mathlib

/-!
Shallow embedding of the transactional core of the `my-shoppingmall`
storefront: cart aggregation (`src/actions/cart.ts`, recovered as
`src/unnamed/part_001`), order creation and the order status state machine
(`src/actions/orders.ts`, `src/lib/utils/orders.ts` recovered as
`src/unnamed/part_011`), and payment request/confirm/cancel
(`src/actions/payments.ts`, recovered as `src/unnamed/part_002`).

Modelling conventions:
- Database rows are Lean structures; the Supabase tables are Lean lists.
- Row ids are `Nat` (the source uses UUID strings; the UUID-format regex
  checks always pass for well-formed ids and are therefore not modelled).
- JS `number` amounts and quantities are `Int`.
- `await auth()` is an `Option String` user id in the environment.
- Each store write that can fail is an explicit `Bool` in the environment
  (`true` = the insert/update/delete succeeded); a failed write leaves the
  table unchanged, as Supabase reports an error without mutating.
- The one network call (Toss Payments confirm) is a `GatewayResult` in the
  environment: a thrown transport error (`timeout`), a non-ok response
  carrying an optional error message (`rejected`), or an ok response with
  the parsed payment payload (`approved`).
- Ghost fields `gatewayCalled` / `ownershipRejected` record whether the
  fetch was reached and whether the `order.clerk_id !== userId` branch
  fired; they do not influence the computation.
- `console.*` logging and `created_at` / `updated_at` bookkeeping columns
  are not modelled.
-/

namespace Shop

/-- Order lifecycle status, from `src/types/order.ts` (`OrderStatus`). -/
inductive OrderStatus where
  | pending
  | confirmed
  | shipped
  | delivered
  | cancelled
deriving DecidableEq

/-- Payment status, from `src/types/payment.ts` (`PaymentStatus`). -/
inductive PaymentStatus where
  | pending
  | success
  | failed
  | cancelled
deriving DecidableEq

/-- Payment method, from `src/types/payment.ts` (`PaymentMethod`).
The source uses the Korean literals 카드, 가상계좌, 계좌이체, 휴대폰,
상품권, 도서문화상품권, 게임문화상품권, in this order. -/
inductive PaymentMethod where
  | card
  | virtualAccount
  | bankTransfer
  | mobilePhone
  | giftCertificate
  | bookGiftCertificate
  | gameGiftCertificate
deriving DecidableEq

/-- Receipt part of `PaymentInfo` (`src/types/payment.ts`). -/
structure PaymentReceipt where
  receiptKey : String
  receiptUrl : String
deriving DecidableEq

/-- Fee part of `PaymentInfo` (`src/types/payment.ts`). -/
structure PaymentFee where
  amount : Int
  payer : String
deriving DecidableEq

/-- Payment details stored in `orders.payment_info`
(`src/types/payment.ts`, `PaymentInfo`). The optional `failure` and
`cancels` fields are never written by the embedded actions and are
omitted. -/
structure PaymentInfo where
  amount : Int
  method : PaymentMethod
  paymentKey : String
  orderId : String
  receipt : Option PaymentReceipt
  fee : Option PaymentFee
deriving DecidableEq

/-- Shipping address payload, from `src/types/order.ts`
(`ShippingAddress`). -/
structure ShippingAddress where
  name : String
  phone : String
  postcode : String
  address : String
  detailAddress : String
deriving DecidableEq

/-- A row of the `orders` table, from `src/types/order.ts` (`Order`). -/
structure Order where
  id : Nat
  clerk_id : String
  total_amount : Int
  status : OrderStatus
  shipping_address : Option ShippingAddress
  order_note : Option String
  payment_id : Option String
  payment_method : Option PaymentMethod
  payment_status : Option PaymentStatus
  paid_at : Option String
  payment_info : Option PaymentInfo
deriving DecidableEq

/-- A row of the `order_items` table, from `src/types/order.ts`
(`OrderItem`); exactly the columns `createOrder` inserts (the
database-generated `id` and `created_at` are omitted). -/
structure OrderItem where
  order_id : Nat
  product_id : Nat
  product_name : String
  quantity : Int
  price : Int
deriving DecidableEq

/-- A row of the `products` table, the fields the embedded actions read
(`src/types/product.ts`). -/
structure Product where
  id : Nat
  name : String
  price : Int
  stock_quantity : Int
  is_active : Bool
deriving DecidableEq

/-- A row of the `cart_items` table, from `src/types/cart.ts`
(`CartItem`). -/
structure CartItem where
  id : Nat
  clerk_id : String
  product_id : Nat
  quantity : Int
deriving DecidableEq

/-- A `cart_items` row joined with its `products` row, from
`src/types/cart.ts` (`CartItemWithProduct`). -/
structure CartItemWithProduct where
  id : Nat
  clerk_id : String
  product_id : Nat
  quantity : Int
  product : Product
deriving DecidableEq

/-- The store: the four tables the transactional core touches. -/
structure DB where
  orders : List Order
  orderItems : List OrderItem
  cartItems : List CartItem
  products : List Product
deriving DecidableEq

/-- A `{ success, message }` action result, the shape returned by
`addToCart`, `updateOrderStatus`, `confirmPayment` and `cancelPayment`. -/
structure ActionResult where
  success : Bool
  message : String
deriving DecidableEq

/-- `.eq("id", orderId).eq("clerk_id", userId).single()` — the single-row
order fetch used by `getOrderById` (src/actions/orders.ts:249-254) and
`updateOrderStatus` (src/actions/orders.ts:355-360). -/
def findOrder (orders : List Order) (uid : String) (oid : Nat) : Option Order :=
  orders.find? (fun o => o.id == oid && o.clerk_id == uid)

/-- `getOrderById` (src/actions/orders.ts:220-305): returns the caller's
order or `null`. The UUID-format check and the follow-up `order_items`
fetch (whose rows the payment actions never read) are not modelled; both
can only turn a result into `null`, never widen it. -/
def getOrderById (userId : Option String) (orders : List Order) (oid : Nat) :
    Option Order :=
  match userId with
  | none => none
  | some uid => findOrder orders uid oid

/-- `canUpdateOrderStatus` (src/lib/utils/orders.ts, recovered as
src/unnamed/part_011:99-117): same-state change is refused, otherwise the
target must be in the allowed-transitions table. -/
def canUpdateOrderStatus (currentStatus newStatus : OrderStatus) : Bool :=
  if currentStatus == newStatus then
    false
  else
    (allowedTransitions currentStatus).contains newStatus
where
  /-- The `allowedTransitions` record literal of the source. -/
  allowedTransitions : OrderStatus → List OrderStatus
    | .pending => [.confirmed, .cancelled]
    | .confirmed => [.shipped, .cancelled]
    | .shipped => [.delivered, .cancelled]
    | .delivered => []
    | .cancelled => []

/-- `getOrderStatusLabel` (src/unnamed/part_011:124-134). -/
def getOrderStatusLabel : OrderStatus → String
  | .pending => "주문 대기중"
  | .confirmed => "주문 확인됨"
  | .shipped => "배송중"
  | .delivered => "배송완료"
  | .cancelled => "주문 취소됨"

/-- The status strings used where the source interpolates the raw status
value (payments.ts messages). -/
def orderStatusString : OrderStatus → String
  | .pending => "pending"
  | .confirmed => "confirmed"
  | .shipped => "shipped"
  | .delivered => "delivered"
  | .cancelled => "cancelled"

/-- `.update(...).eq("id", orderId).eq("clerk_id", userId)` — the scoped
order update used by `updateOrderStatus`, `confirmPayment` and
`cancelPayment`. -/
def updateOrders (orders : List Order) (uid : String) (oid : Nat)
    (f : Order → Order) : List Order :=
  orders.map (fun o => if o.id == oid && o.clerk_id == uid then f o else o)

/-- Environment for `updateOrderStatus`: the authenticated user and
whether the status `update` write succeeds. -/
structure UpdateEnv where
  userId : Option String
  updateOk : Bool

/-- Result of `updateOrderStatus`: the returned
`UpdateOrderStatusResult` and the `orders` table afterwards. -/
structure UpdateOutcome where
  result : ActionResult
  orders : List Order
deriving DecidableEq

/-- `updateOrderStatus` (src/actions/orders.ts:319-434). -/
def updateOrderStatus (env : UpdateEnv) (orders : List Order) (orderId : Nat)
    (status : OrderStatus) : UpdateOutcome :=
  match env.userId with
  | none => ⟨⟨false, "로그인이 필요합니다."⟩, orders⟩
  | some uid =>
    match findOrder orders uid orderId with
    | none => ⟨⟨false, "주문을 찾을 수 없거나 접근 권한이 없습니다."⟩, orders⟩
    | some order =>
      if order.status == status then
        ⟨⟨false, "이미 해당 상태로 설정되어 있습니다."⟩, orders⟩
      else if !canUpdateOrderStatus order.status status then
        ⟨⟨false, "\"" ++ getOrderStatusLabel order.status ++ "\" 상태에서는 \"" ++
            getOrderStatusLabel status ++ "\" 상태로 변경할 수 없습니다."⟩, orders⟩
      else if env.updateOk then
        ⟨⟨true, "주문 상태가 \"" ++ getOrderStatusLabel status ++ "\"로 변경되었습니다."⟩,
          updateOrders orders uid orderId (fun o => { o with status := status })⟩
      else
        ⟨⟨false, "주문 상태를 변경하는 중 오류가 발생했습니다."⟩, orders⟩

/-- The transition edges named by the specification, written from the
spec's words for comparison with `canUpdateOrderStatus`. -/
def specAllowedEdges : List (OrderStatus × OrderStatus) :=
  [(.pending, .confirmed), (.pending, .cancelled),
   (.confirmed, .shipped), (.confirmed, .cancelled),
   (.shipped, .delivered), (.shipped, .cancelled)]

/-- The payload of an ok Toss Payments confirm response, the fields
`confirmPayment` reads from `paymentData` (src/unnamed/part_002:223-258). -/
structure GatewayPaymentData where
  totalAmount : Int
  method : String
  paymentKey : String
  orderId : String
  receipt : Option PaymentReceipt
  fee : Option PaymentFee
deriving DecidableEq

/-- Outcome of the one external round-trip in `confirmPayment`: the
`fetch` throws (transport error or timeout), returns a non-ok response
whose parsed body optionally carries a `message`, or returns an ok
response with the parsed payment data. -/
inductive GatewayResult where
  | timeout
  | rejected (message : Option String)
  | approved (data : GatewayPaymentData)
deriving DecidableEq

/-- The method-string mapping of `confirmPayment`
(src/unnamed/part_002:230-239): unknown methods default to card. -/
def parsePaymentMethod (s : String) : PaymentMethod :=
  if s == "카드" then .card
  else if s == "가상계좌" then .virtualAccount
  else if s == "계좌이체" then .bankTransfer
  else if s == "휴대폰" then .mobilePhone
  else .card

/-- The `paymentInfo` object `confirmPayment` builds from the gateway
response (src/unnamed/part_002:241-258). -/
def buildPaymentInfo (data : GatewayPaymentData) : PaymentInfo :=
  { amount := data.totalAmount
    method := parsePaymentMethod data.method
    paymentKey := data.paymentKey
    orderId := data.orderId
    receipt := data.receipt
    fee := data.fee }

/-- JS `errorData.message || "결제 승인에 실패했습니다."`: absent and empty
messages both fall back to the default (`||` is falsy on `""`). -/
def rejectionMessage (m : Option String) : String :=
  match m with
  | none => "결제 승인에 실패했습니다."
  | some s => if s == "" then "결제 승인에 실패했습니다." else s

/-- Environment for `confirmPayment`: the authenticated user, the
`TOSS_PAYMENTS_SECRET_KEY` env var, the gateway round-trip outcome,
whether the final order `update` write succeeds, and the current time. -/
structure ConfirmEnv where
  userId : Option String
  secretKey : Option String
  gateway : GatewayResult
  updateOk : Bool
  now : String

/-- Result of `confirmPayment`: the `{ success, message }` value, the
`orders` table afterwards, and ghost flags recording whether the gateway
fetch was reached and whether the explicit ownership re-check branch
fired. -/
structure ConfirmOutcome where
  result : ActionResult
  orders : List Order
  gatewayCalled : Bool
  ownershipRejected : Bool
deriving DecidableEq

/-- The order-field update written by `confirmPayment` on gateway success
(src/unnamed/part_002:263-274). -/
def applyPaymentSuccess (paymentKey : String) (data : GatewayPaymentData)
    (now : String) (o : Order) : Order :=
  { o with
    payment_id := some paymentKey
    payment_method := some (parsePaymentMethod data.method)
    payment_status := some .success
    paid_at := some now
    payment_info := some (buildPaymentInfo data)
    status := .confirmed }

/-- `confirmPayment` (src/unnamed/part_002:126-304). -/
def confirmPayment (env : ConfirmEnv) (orders : List Order)
    (paymentKey : String) (orderId : Nat) (amount : Int) : ConfirmOutcome :=
  match env.userId with
  | none => ⟨⟨false, "로그인이 필요합니다."⟩, orders, false, false⟩
  | some uid =>
    match getOrderById (some uid) orders orderId with
    | none => ⟨⟨false, "주문을 찾을 수 없습니다."⟩, orders, false, false⟩
    | some order =>
      if order.clerk_id != uid then
        ⟨⟨false, "주문에 접근할 권한이 없습니다."⟩, orders, false, true⟩
      else if order.total_amount != amount then
        ⟨⟨false, "결제 금액이 일치하지 않습니다."⟩, orders, false, false⟩
      else
        match env.secretKey with
        | none =>
          ⟨⟨false, "결제 서버 설정 오류입니다. 관리자에게 문의해주세요."⟩, orders, false, false⟩
        | some _ =>
          match env.gateway with
          | .timeout =>
            ⟨⟨false, "결제 승인 중 오류가 발생했습니다. 잠시 후 다시 시도해주세요."⟩,
              orders, true, false⟩
          | .rejected m =>
            ⟨⟨false, rejectionMessage m⟩, orders, true, false⟩
          | .approved data =>
            if env.updateOk then
              ⟨⟨true, "결제가 완료되었습니다."⟩,
                updateOrders orders uid orderId
                  (applyPaymentSuccess paymentKey data env.now),
                true, false⟩
            else
              ⟨⟨false, "결제는 완료되었지만 주문 정보 업데이트에 실패했습니다. 고객센터로 문의해주세요."⟩,
                orders, true, false⟩

/-- The `PaymentRequestResponse` returned by `requestPayment`
(src/types/payment.ts). -/
structure PaymentRequestResponse where
  success : Bool
  orderId : Option Nat
  message : String
deriving DecidableEq

/-- Result of `requestPayment` plus the ownership-branch ghost flag
(`requestPayment` performs no store write). -/
structure RequestOutcome where
  resp : PaymentRequestResponse
  ownershipRejected : Bool
deriving DecidableEq

/-- `requestPayment` (src/unnamed/part_002:34-117). -/
def requestPayment (userId : Option String) (orders : List Order)
    (orderId : Nat) : RequestOutcome :=
  match userId with
  | none => ⟨⟨false, none, "로그인이 필요합니다."⟩, false⟩
  | some uid =>
    match getOrderById (some uid) orders orderId with
    | none => ⟨⟨false, none, "주문을 찾을 수 없습니다."⟩, false⟩
    | some order =>
      if order.clerk_id != uid then
        ⟨⟨false, none, "주문에 접근할 권한이 없습니다."⟩, true⟩
      else if order.payment_status == some .success then
        ⟨⟨false, none, "이미 결제가 완료된 주문입니다."⟩, false⟩
      else if order.status != .pending then
        ⟨⟨false, none, "\"" ++ orderStatusString order.status ++
            "\" 상태의 주문은 결제할 수 없습니다."⟩, false⟩
      else
        ⟨⟨true, some order.id, "결제 요청이 준비되었습니다."⟩, false⟩

/-- Environment for `cancelPayment`: the authenticated user and whether
the cancelling `update` write succeeds. -/
structure CancelEnv where
  userId : Option String
  updateOk : Bool

/-- Result of `cancelPayment`: the `{ success, message }` value, the
`orders` table afterwards, and the ownership-branch ghost flag. -/
structure CancelOutcome where
  result : ActionResult
  orders : List Order
  ownershipRejected : Bool
deriving DecidableEq

/-- `cancelPayment` (src/unnamed/part_002:311-400). -/
def cancelPayment (env : CancelEnv) (orders : List Order) (orderId : Nat) :
    CancelOutcome :=
  match env.userId with
  | none => ⟨⟨false, "로그인이 필요합니다."⟩, orders, false⟩
  | some uid =>
    match getOrderById (some uid) orders orderId with
    | none => ⟨⟨false, "주문을 찾을 수 없습니다."⟩, orders, false⟩
    | some order =>
      if order.clerk_id != uid then
        ⟨⟨false, "주문에 접근할 권한이 없습니다."⟩, orders, true⟩
      else if order.status != .pending && order.status != .confirmed then
        ⟨⟨false, "\"" ++ orderStatusString order.status ++
            "\" 상태의 주문은 취소할 수 없습니다."⟩, orders, false⟩
      else if env.updateOk then
        ⟨⟨true, "주문이 취소되었습니다."⟩,
          updateOrders orders uid orderId
            (fun o => { o with status := .cancelled,
                               payment_status := some .cancelled }),
          false⟩
      else
        ⟨⟨false, "주문 취소 중 오류가 발생했습니다."⟩, orders, false⟩

/-- `getProductById` (src/actions/get-products.ts:223-279): single active
product by id, `null` when absent or inactive. -/
def getProductById (products : List Product) (pid : Nat) : Option Product :=
  products.find? (fun p => p.id == pid && p.is_active)

/-- Environment for `addToCart`: the authenticated user, whether the
existing-line select succeeds (a non-`PGRST116` fetch error aborts),
whether the quantity `update` / row `insert` writes succeed, and the id
the store assigns to a newly inserted line. -/
structure AddToCartEnv where
  userId : Option String
  cartFetchOk : Bool
  updateOk : Bool
  insertOk : Bool
  newCartItemId : Nat

/-- Result of `addToCart`: the `{ success, message }` value and the store
afterwards. -/
structure AddToCartOutcome where
  result : ActionResult
  db : DB
deriving DecidableEq

/-- `addToCart` (src/actions/cart.ts, recovered as
src/unnamed/part_001:24-183). The JS guard `!quantity || quantity < 1`
is `quantity < 1` on `Int` (it additionally rejects `NaN`, which has no
integer counterpart). -/
def addToCart (env : AddToCartEnv) (db : DB) (productId : Nat)
    (quantity : Int) : AddToCartOutcome :=
  match env.userId with
  | none =>
    ⟨⟨false, "로그인이 필요합니다. 로그인 후 장바구니에 추가할 수 있습니다."⟩, db⟩
  | some uid =>
    if quantity < 1 then
      ⟨⟨false, "수량은 1개 이상이어야 합니다."⟩, db⟩
    else
      match getProductById db.products productId with
      | none =>
        ⟨⟨false, "상품을 찾을 수 없거나 현재 판매 중이 아닙니다."⟩, db⟩
      | some product =>
        if product.stock_quantity < quantity then
          ⟨⟨false, "재고가 부족합니다. (현재 재고: " ++
              toString product.stock_quantity ++ "개)"⟩, db⟩
        else if !env.cartFetchOk then
          ⟨⟨false, "장바구니를 불러오는 중 오류가 발생했습니다."⟩, db⟩
        else
          match db.cartItems.find?
              (fun c => c.clerk_id == uid && c.product_id == productId) with
          | some existingCartItem =>
            let newQuantity := existingCartItem.quantity + quantity
            if product.stock_quantity < newQuantity then
              ⟨⟨false, "재고가 부족합니다. 장바구니에 이미 " ++
                  toString existingCartItem.quantity ++
                  "개가 있습니다. (현재 재고: " ++
                  toString product.stock_quantity ++ "개)"⟩, db⟩
            else if env.updateOk then
              let updatedItems := db.cartItems.map
                (fun c => if c.id == existingCartItem.id then
                    { c with quantity := newQuantity } else c)
              ⟨⟨true, "장바구니에 추가되었습니다. (총 " ++
                  toString newQuantity ++ "개)"⟩,
                { db with cartItems := updatedItems }⟩
            else
              ⟨⟨false, "장바구니에 추가하는 중 오류가 발생했습니다."⟩, db⟩
          | none =>
            if env.insertOk then
              ⟨⟨true, "장바구니에 추가되었습니다."⟩,
                { db with cartItems := db.cartItems ++
                    [⟨env.newCartItemId, uid, productId, quantity⟩] }⟩
            else
              ⟨⟨false, "장바구니에 추가하는 중 오류가 발생했습니다."⟩, db⟩

/-- The stored quantity of the caller's cart line for a product (the
`(clerk_id, product_id)` single-row view of `cart_items`). -/
def cartQuantity (db : DB) (uid : String) (pid : Nat) : Option Int :=
  (db.cartItems.find?
      (fun c => c.clerk_id == uid && c.product_id == pid)).map
    (fun c => c.quantity)

/-- `getCartItems` (src/unnamed/part_001:189-265): the caller's
`cart_items` rows joined with `products`; rows whose product no longer
resolves are dropped. The `created_at` ordering is not modelled. -/
def getCartItems (db : DB) (uid : String) : List CartItemWithProduct :=
  (db.cartItems.filter (fun c => c.clerk_id == uid)).filterMap
    (fun c => (db.products.find? (fun p => p.id == c.product_id)).map
      (fun p => ⟨c.id, c.clerk_id, c.product_id, c.quantity, p⟩))

/-- The validation loop of `createOrder` (src/actions/orders.ts:78-108):
the first inactive or under-stocked line aborts with its message. In the
model the joined product is always present, so the `!product` half of the
source's `!product || !product.is_active` guard cannot fire. -/
def findInvalidLine : List CartItemWithProduct → Option String
  | [] => none
  | i :: rest =>
    if !i.product.is_active then
      some ("\"" ++ i.product.name ++
        "\"은 현재 판매 중이 아닙니다. 장바구니에서 제거 후 다시 시도해주세요.")
    else if i.product.stock_quantity < i.quantity then
      some ("\"" ++ i.product.name ++ "\"의 재고가 부족합니다. (요청: " ++
        toString i.quantity ++ "개, 재고: " ++
        toString i.product.stock_quantity ++ "개)")
    else
      findInvalidLine rest

/-- `cartItems.reduce((sum, item) => sum + item.product.price * item.quantity, 0)`
(src/actions/orders.ts:111-113). -/
def cartTotalAmount (items : List CartItemWithProduct) : Int :=
  items.foldl (fun s i => s + i.product.price * i.quantity) 0

/-- The `order_items` insert payload built from the cart
(src/actions/orders.ts:150-156): name and price are snapshotted from the
joined product. -/
def buildOrderItems (orderId : Nat) (items : List CartItemWithProduct) :
    List OrderItem :=
  items.map (fun i =>
    ⟨orderId, i.product_id, i.product.name, i.quantity, i.product.price⟩)

/-- Σ price × quantity over a list of order lines. -/
def orderItemsTotal (items : List OrderItem) : Int :=
  items.foldl (fun s l => s + l.price * l.quantity) 0

/-- JS `orderNote || null` (src/actions/orders.ts:131): an absent or
empty note is stored as `null`. -/
def noteOrNull (note : Option String) : Option String :=
  match note with
  | none => none
  | some s => if s == "" then none else some s

/-- The `orders` row inserted by `createOrder`
(src/actions/orders.ts:124-134): `pending`, computed total, supplied
shipping payload, all payment fields null. -/
def mkPendingOrder (orderId : Nat) (uid : String) (totalAmount : Int)
    (shipping : ShippingAddress) (note : Option String) : Order :=
  { id := orderId
    clerk_id := uid
    total_amount := totalAmount
    status := .pending
    shipping_address := some shipping
    order_note := noteOrNull note
    payment_id := none
    payment_method := none
    payment_status := none
    paid_at := none
    payment_info := none }

/-- Environment for `createOrder`: the authenticated user, whether each
of the three store writes succeeds (orders insert, order_items insert,
cart_items delete), and the id the store assigns to the new order. -/
structure CreateOrderEnv where
  userId : Option String
  insertOrderOk : Bool
  newOrderId : Nat
  insertItemsOk : Bool
  deleteCartOk : Bool

/-- `CreateOrderResult` (src/actions/orders.ts:29-33). -/
structure CreateOrderResult where
  success : Bool
  orderId : Option Nat
  message : String
deriving DecidableEq

/-- Result of `createOrder`: the returned `CreateOrderResult` and the
store afterwards. -/
structure CreateOrderOutcome where
  result : CreateOrderResult
  db : DB
deriving DecidableEq

/-- `createOrder` (src/actions/orders.ts:41-213). On an `order_items`
insert failure the source only logs and returns — no compensating delete
of the already-inserted header is issued; on a `cart_items` delete
failure the source only logs a warning and still returns success. -/
def createOrder (env : CreateOrderEnv) (db : DB)
    (shippingAddress : ShippingAddress) (orderNote : Option String) :
    CreateOrderOutcome :=
  match env.userId with
  | none =>
    ⟨⟨false, none, "로그인이 필요합니다. 로그인 후 주문할 수 있습니다."⟩, db⟩
  | some uid =>
    let cartItems := getCartItems db uid
    if cartItems.isEmpty then
      ⟨⟨false, none, "장바구니가 비어있습니다. 상품을 추가한 후 주문해주세요."⟩, db⟩
    else
      match findInvalidLine cartItems with
      | some m => ⟨⟨false, none, m⟩, db⟩
      | none =>
        let totalAmount := cartTotalAmount cartItems
        if !env.insertOrderOk then
          ⟨⟨false, none,
            "주문을 생성하는 중 오류가 발생했습니다. 잠시 후 다시 시도해주세요."⟩, db⟩
        else
          let orderId := env.newOrderId
          let db1 := { db with orders := db.orders ++
            [mkPendingOrder orderId uid totalAmount shippingAddress orderNote] }
          let orderItems := buildOrderItems orderId cartItems
          if !env.insertItemsOk then
            ⟨⟨false, none,
              "주문 상품 정보를 저장하는 중 오류가 발생했습니다. 고객센터로 문의해주세요."⟩, db1⟩
          else
            let db2 := { db1 with orderItems := db1.orderItems ++ orderItems }
            if env.deleteCartOk then
              let remaining := db2.cartItems.filter (fun c => !(c.clerk_id == uid))
              ⟨⟨true, some orderId, "주문이 성공적으로 생성되었습니다."⟩,
                { db2 with cartItems := remaining }⟩
            else
              ⟨⟨true, some orderId, "주문이 성공적으로 생성되었습니다."⟩, db2⟩

/-- Replacing the product catalog of a store (models later catalog
edits, which touch only the `products` table). -/
def setProducts (db : DB) (ps : List Product) : DB :=
  { db with products := ps }

/-- Sample shipping payload for concrete runs. -/
def sampleShipping : ShippingAddress :=
  ⟨"홍길동", "010-1234-5678", "04524", "서울시 중구", "101호"⟩

/-- A pending order of buyer `"u"` with total 2500 (the spec's concrete
payment scenario). -/
def sampleOrder : Order := mkPendingOrder 1 "u" 2500 sampleShipping none

/-- The same order after shipment. -/
def shippedOrder : Order := { sampleOrder with id := 2, status := OrderStatus.shipped }

/-- Catalog with two active products: P1 at 1000 (stock 10), P2 at 500
(stock 5). -/
def sampleProducts : List Product :=
  [⟨1, "P1", 1000, 10, true⟩, ⟨2, "P2", 500, 5, true⟩]

/-- Store whose cart for buyer `"u"` holds P1 × 2 and P2 × 1 (the spec's
concrete checkout scenario, total 2500). -/
def sampleDB : DB := ⟨[], [], [⟨1, "u", 1, 2⟩, ⟨2, "u", 2, 1⟩], sampleProducts⟩

/-- Store whose cart for buyer `"u"` is empty. -/
def emptyCartDB : DB := ⟨[sampleOrder], [], [], sampleProducts⟩

/-- Store for the spec's concrete add-to-cart scenario: product 1 has
stock 5 and buyer `"u"` already holds 3 of it. -/
def stockFiveDB : DB := ⟨[], [], [⟨1, "u", 1, 3⟩], [⟨1, "P", 1000, 5, true⟩]⟩

/-- A found order matches both filters of the single-row fetch. -/
lemma findOrder_some {orders : List Order} {uid : String} {oid : Nat}
    {o : Order} (h : findOrder orders uid oid = some o) :
    o.id = oid ∧ o.clerk_id = uid := by
  have hp := List.find?_some h
  simpa using hp

/-- `find?` commutes with a map that does not change whether elements
satisfy the predicate. -/
lemma find?_map_of_pres {α : Type} (p : α → Bool) (g : α → α)
    (hp : ∀ a, p (g a) = p a) (l : List α) :
    (l.map g).find? p = (l.find? p).map g := by
  induction l with
  | nil => rfl
  | cons a t ih =>
    cases h : p a with
    | true => simp [List.find?_cons, hp, h]
    | false => simp [List.find?_cons, hp, h, ih]

/-- The scoped order update rewrites exactly the fetched row, provided
the update function keeps the `id` and `clerk_id` columns. -/
lemma findOrder_updateOrders {f : Order → Order}
    (hf : ∀ o, (f o).id = o.id ∧ (f o).clerk_id = o.clerk_id)
    (orders : List Order) (uid : String) (oid : Nat) :
    findOrder (updateOrders orders uid oid f) uid oid =
      (findOrder orders uid oid).map f := by
  unfold findOrder updateOrders
  rw [find?_map_of_pres]
  · cases hfo : orders.find? (fun o => o.id == oid && o.clerk_id == uid) with
    | none => rfl
    | some o =>
      have h12 : o.id = oid ∧ o.clerk_id = uid := by
        simpa using List.find?_some hfo
      simp [h12.1, h12.2]
  · intro a
    by_cases h : (a.id == oid && a.clerk_id == uid) = true
    · simp [h, (hf a).1, (hf a).2]
    · simp [h]

/-- C1: if `confirmPayment` is called with an amount different from the
order's `total_amount`, it returns the amount-mismatch failure, the
gateway is never called, and the `orders` table is left unchanged. -/
theorem confirmPayment_amount_mismatch_guard (env : ConfirmEnv)
    (orders : List Order) (pk : String) (oid : Nat) (amt : Int)
    (uid : String) (order : Order)
    (hu : env.userId = some uid) (ho : findOrder orders uid oid = some order)
    (hne : amt ≠ order.total_amount) :
    confirmPayment env orders pk oid amt =
      ⟨⟨false, "결제 금액이 일치하지 않습니다."⟩, orders, false, false⟩ := by
  have hc := (findOrder_some ho).2
  simp [confirmPayment, getOrderById, hu, ho, hc, Ne.symm hne]

/-- C1 witness: confirming the spec's 2500-won order with a reported
amount of 2400 fails with the mismatch message, no gateway call, no
mutation. -/
theorem confirmPayment_amount_mismatch_guard_witness :
    confirmPayment ⟨some "u", some "sk", .timeout, true, "t"⟩ [sampleOrder]
        "pk" 1 2400 =
      ⟨⟨false, "결제 금액이 일치하지 않습니다."⟩, [sampleOrder], false, false⟩ :=
  confirmPayment_amount_mismatch_guard _ _ _ _ _ "u" sampleOrder rfl
    (by decide) (by decide)

/-- C2: with an authenticated owner, a found order and a succeeding
write, `updateOrderStatus` succeeds exactly for the six transition edges
of the spec's table, and a request for the current status is rejected
with the dedicated no-change failure. -/
theorem updateOrderStatus_edge_table (env : UpdateEnv) (orders : List Order)
    (oid : Nat) (st : OrderStatus) (uid : String) (order : Order)
    (hu : env.userId = some uid) (ho : findOrder orders uid oid = some order)
    (hw : env.updateOk = true) :
    ((updateOrderStatus env orders oid st).result.success = true ↔
      (order.status, st) ∈ specAllowedEdges)
    ∧ (order.status = st →
        (updateOrderStatus env orders oid st).result =
          ⟨false, "이미 해당 상태로 설정되어 있습니다."⟩) := by
  obtain ⟨i, c, t, s0, sa, n, p1, p2, p3, p4, p5⟩ := order
  simp only [updateOrderStatus, hu, ho]
  constructor
  · cases s0 <;> cases st <;>
      simp [canUpdateOrderStatus, canUpdateOrderStatus.allowedTransitions,
        specAllowedEdges, hw, beq_iff_eq]
  · intro h
    cases s0 <;> cases st <;> simp_all [beq_iff_eq]

/-- C2 witness: a pending order can be confirmed, and asking for
`pending` again on a pending order yields the no-change failure. -/
theorem updateOrderStatus_edge_table_witness :
    ((updateOrderStatus ⟨some "u", true⟩ [sampleOrder] 1 .confirmed).result.success
        = true)
    ∧ (updateOrderStatus ⟨some "u", true⟩ [sampleOrder] 1 .pending).result =
        ⟨false, "이미 해당 상태로 설정되어 있습니다."⟩ :=
  ⟨(updateOrderStatus_edge_table _ _ 1 .confirmed "u" sampleOrder rfl
      (by decide) rfl).1.mpr (by decide),
   (updateOrderStatus_edge_table _ _ 1 .pending "u" sampleOrder rfl
      (by decide) rfl).2 (by decide)⟩

/-- The total the order header stores equals Σ price × quantity over the
order lines built from the same cart snapshot. -/
lemma orderItemsTotal_build (oid : Nat) (items : List CartItemWithProduct) :
    orderItemsTotal (buildOrderItems oid items) = cartTotalAmount items := by
  unfold orderItemsTotal buildOrderItems cartTotalAmount
  rw [List.foldl_map]

/-- C3: for a non-empty cart that passes validation, the created order
header carries `total_amount = cartTotalAmount cart`, the persisted lines
are the price/name snapshots `buildOrderItems` takes from the joined
products, that stored total equals Σ price × quantity over exactly those
lines, and replacing the product catalog afterwards leaves the stored
orders untouched. -/
theorem createOrder_total_snapshot (env : CreateOrderEnv) (db : DB)
    (sa : ShippingAddress) (note : Option String) (uid : String)
    (hu : env.userId = some uid)
    (hne : getCartItems db uid ≠ [])
    (hval : findInvalidLine (getCartItems db uid) = none)
    (hord : env.insertOrderOk = true)
    (hitems : env.insertItemsOk = true) :
    (createOrder env db sa note).db.orders = db.orders ++
        [mkPendingOrder env.newOrderId uid
          (cartTotalAmount (getCartItems db uid)) sa note]
    ∧ (createOrder env db sa note).db.orderItems = db.orderItems ++
        buildOrderItems env.newOrderId (getCartItems db uid)
    ∧ cartTotalAmount (getCartItems db uid) =
        orderItemsTotal (buildOrderItems env.newOrderId (getCartItems db uid))
    ∧ (∀ ps, (setProducts (createOrder env db sa note).db ps).orders =
        (createOrder env db sa note).db.orders) := by
  have hne' : (getCartItems db uid).isEmpty = false := by
    cases h : getCartItems db uid with
    | nil => exact absurd h hne
    | cons a t => rfl
  refine ⟨?_, ?_, (orderItemsTotal_build env.newOrderId _).symm, ?_⟩ <;>
    cases hdel : env.deleteCartOk <;>
      simp [createOrder, hu, hne', hval, hord, hitems, hdel, setProducts]

/-- C3 witness: on the spec's concrete two-line cart (P1 at 1000 × 2 and
P2 at 500 × 1) the created header stores 2500, the snapshot total. -/
theorem createOrder_total_snapshot_witness :
    (createOrder ⟨some "u", true, 7, true, true⟩ sampleDB sampleShipping
        none).db.orders =
      sampleDB.orders ++ [mkPendingOrder 7 "u"
        (cartTotalAmount (getCartItems sampleDB "u")) sampleShipping none]
    ∧ cartTotalAmount (getCartItems sampleDB "u") = 2500 :=
  ⟨(createOrder_total_snapshot ⟨some "u", true, 7, true, true⟩ sampleDB
      sampleShipping none "u" rfl (by decide) (by decide) rfl rfl).1,
   by decide⟩

/-- C5: for a buyer whose cart is empty, `createOrder` fails with the
empty-cart message and performs no write at all. -/
theorem createOrder_empty_cart (env : CreateOrderEnv) (db : DB)
    (sa : ShippingAddress) (note : Option String) (uid : String)
    (hu : env.userId = some uid)
    (he : getCartItems db uid = []) :
    (createOrder env db sa note).result =
      ⟨false, none, "장바구니가 비어있습니다. 상품을 추가한 후 주문해주세요."⟩
    ∧ (createOrder env db sa note).db = db := by
  simp [createOrder, hu, he]

/-- C5 witness: the empty-cart store: the checkout fails with the
empty-cart message and the store is untouched. -/
theorem createOrder_empty_cart_witness :
    (createOrder ⟨some "u", true, 7, true, true⟩ emptyCartDB sampleShipping
        none).result =
      ⟨false, none, "장바구니가 비어있습니다. 상품을 추가한 후 주문해주세요."⟩
    ∧ (createOrder ⟨some "u", true, 7, true, true⟩ emptyCartDB sampleShipping
        none).db = emptyCartDB :=
  createOrder_empty_cart _ _ _ _ "u" rfl (by decide)

/-- C6 counterexample: with every store delete able to succeed, an
`order_items` insert failure still leaves the freshly inserted header in
the `orders` table (no compensating delete is issued), and the returned
failure carries no order id. -/
theorem createOrder_items_fail_cex :
    (createOrder ⟨some "u", true, 7, false, true⟩ sampleDB sampleShipping
        none).db.orders =
      [mkPendingOrder 7 "u" 2500 sampleShipping none]
    ∧ (createOrder ⟨some "u", true, 7, false, true⟩ sampleDB sampleShipping
        none).result.orderId = none
    ∧ (createOrder ⟨some "u", true, 7, false, true⟩ sampleDB sampleShipping
        none).result.success = false := by
  decide

/-- C6 amended: when the `order_items` insert fails after the header
insert succeeded, `createOrder` reports the dedicated
items-persist-failed failure (which does not carry the order id), no
compensating delete is attempted — the pending header stays in the
store — and no order lines and no cart changes are made. The message is
distinct from the header-insert failure message. -/
theorem createOrder_items_fail_no_compensation (env : CreateOrderEnv)
    (db : DB) (sa : ShippingAddress) (note : Option String) (uid : String)
    (hu : env.userId = some uid)
    (hne : getCartItems db uid ≠ [])
    (hval : findInvalidLine (getCartItems db uid) = none)
    (hord : env.insertOrderOk = true)
    (hitems : env.insertItemsOk = false) :
    (createOrder env db sa note).result =
      ⟨false, none,
        "주문 상품 정보를 저장하는 중 오류가 발생했습니다. 고객센터로 문의해주세요."⟩
    ∧ (createOrder env db sa note).db.orders = db.orders ++
        [mkPendingOrder env.newOrderId uid
          (cartTotalAmount (getCartItems db uid)) sa note]
    ∧ (createOrder env db sa note).db.orderItems = db.orderItems
    ∧ (createOrder env db sa note).db.cartItems = db.cartItems
    ∧ (createOrder env db sa note).result.message ≠
        "주문을 생성하는 중 오류가 발생했습니다. 잠시 후 다시 시도해주세요." := by
  have hne' : (getCartItems db uid).isEmpty = false := by
    cases h : getCartItems db uid with
    | nil => exact absurd h hne
    | cons a t => rfl
  refine ⟨?_, ?_, ?_, ?_, ?_⟩ <;>
    simp [createOrder, hu, hne', hval, hord, hitems]

/-- C6 amended witness: the concrete items-insert failure run. -/
theorem createOrder_items_fail_no_compensation_witness :
    (createOrder ⟨some "u", true, 7, false, true⟩ sampleDB sampleShipping
        none).result =
      ⟨false, none,
        "주문 상품 정보를 저장하는 중 오류가 발생했습니다. 고객센터로 문의해주세요."⟩
    ∧ (createOrder ⟨some "u", true, 7, false, true⟩ sampleDB sampleShipping
        none).db.cartItems = sampleDB.cartItems :=
  ⟨(createOrder_items_fail_no_compensation ⟨some "u", true, 7, false, true⟩
      sampleDB sampleShipping none "u" rfl (by decide) (by decide) rfl rfl).1,
   (createOrder_items_fail_no_compensation ⟨some "u", true, 7, false, true⟩
      sampleDB sampleShipping none "u" rfl (by decide) (by decide) rfl
      rfl).2.2.2.1⟩

/-- C9: once the header and the lines are written, a failure of the
cart-clearing delete does not fail the checkout: the result is success
with the order id, and the stale cart lines stay in place. -/
theorem createOrder_cart_clear_non_fatal (env : CreateOrderEnv) (db : DB)
    (sa : ShippingAddress) (note : Option String) (uid : String)
    (hu : env.userId = some uid)
    (hne : getCartItems db uid ≠ [])
    (hval : findInvalidLine (getCartItems db uid) = none)
    (hord : env.insertOrderOk = true)
    (hitems : env.insertItemsOk = true)
    (hdel : env.deleteCartOk = false) :
    (createOrder env db sa note).result =
      ⟨true, some env.newOrderId, "주문이 성공적으로 생성되었습니다."⟩
    ∧ (createOrder env db sa note).db.cartItems = db.cartItems
    ∧ (createOrder env db sa note).db.orders = db.orders ++
        [mkPendingOrder env.newOrderId uid
          (cartTotalAmount (getCartItems db uid)) sa note]
    ∧ (createOrder env db sa note).db.orderItems = db.orderItems ++
        buildOrderItems env.newOrderId (getCartItems db uid) := by
  have hne' : (getCartItems db uid).isEmpty = false := by
    cases h : getCartItems db uid with
    | nil => exact absurd h hne
    | cons a t => rfl
  refine ⟨?_, ?_, ?_, ?_⟩ <;>
    simp [createOrder, hu, hne', hval, hord, hitems, hdel]

/-- C9 witness: the concrete cart-clear failure run still succeeds with
order id 7 and leaves the two cart lines. -/
theorem createOrder_cart_clear_non_fatal_witness :
    (createOrder ⟨some "u", true, 7, true, false⟩ sampleDB sampleShipping
        none).result =
      ⟨true, some 7, "주문이 성공적으로 생성되었습니다."⟩
    ∧ (createOrder ⟨some "u", true, 7, true, false⟩ sampleDB sampleShipping
        none).db.cartItems = sampleDB.cartItems :=
  ⟨(createOrder_cart_clear_non_fatal ⟨some "u", true, 7, true, false⟩ sampleDB
      sampleShipping none "u" rfl (by decide) (by decide) rfl rfl rfl).1,
   (createOrder_cart_clear_non_fatal ⟨some "u", true, 7, true, false⟩ sampleDB
      sampleShipping none "u" rfl (by decide) (by decide) rfl rfl rfl).2.1⟩

/-- C4: with an existing cart line for the product, `addToCart` stores
`existing + requested` exactly when that combined quantity is within the
product's stock; when it exceeds stock the call fails and the store — in
particular the stored line quantity — is unchanged. -/
theorem addToCart_combined_stock (env : AddToCartEnv) (db : DB) (pid : Nat)
    (q : Int) (uid : String) (product : Product) (existing : CartItem)
    (hu : env.userId = some uid)
    (hq : 1 ≤ q)
    (hp : getProductById db.products pid = some product)
    (hf : env.cartFetchOk = true)
    (he : db.cartItems.find?
        (fun c => c.clerk_id == uid && c.product_id == pid) = some existing)
    (hex : 0 ≤ existing.quantity)
    (hup : env.updateOk = true) :
    (product.stock_quantity < existing.quantity + q →
      (addToCart env db pid q).result.success = false
      ∧ (addToCart env db pid q).db = db)
    ∧ (existing.quantity + q ≤ product.stock_quantity →
      (addToCart env db pid q).result.success = true
      ∧ cartQuantity (addToCart env db pid q).db uid pid =
          some (existing.quantity + q)) := by
  have hq' : ¬ q < 1 := by omega
  constructor
  · intro hover
    by_cases hsq : product.stock_quantity < q
    · simp [addToCart, hu, hq', hp, hsq]
    · simp [addToCart, hu, hq', hp, hsq, hf, he, hover]
  · intro hfit
    have hsq : ¬ product.stock_quantity < q := by omega
    have hover : ¬ product.stock_quantity < existing.quantity + q := by omega
    refine ⟨by simp [addToCart, hu, hq', hp, hsq, hf, he, hover, hup], ?_⟩
    simp [addToCart, hu, hq', hp, hsq, hf, he, hover, hup, cartQuantity]
    have hpg : ((fun c : CartItem => c.clerk_id == uid && c.product_id == pid) ∘
        fun c => if c.id = existing.id then
          { id := c.id, clerk_id := c.clerk_id, product_id := c.product_id,
            quantity := existing.quantity + q }
        else c) =
        fun c : CartItem => c.clerk_id == uid && c.product_id == pid := by
      funext a
      by_cases h : a.id = existing.id <;> simp [h]
    rw [hpg]
    exact ⟨existing, he, by simp⟩

/-- C4 witness: the spec's concrete scenario — stock 5, existing line of
3, adding 3 more fails and the stored line stays at 3, while adding 2
would succeed to a stored 5. -/
theorem addToCart_combined_stock_witness :
    ((addToCart ⟨some "u", true, true, true, 9⟩ stockFiveDB 1 3).result.success
        = false
      ∧ (addToCart ⟨some "u", true, true, true, 9⟩ stockFiveDB 1 3).db =
        stockFiveDB)
    ∧ ((addToCart ⟨some "u", true, true, true, 9⟩ stockFiveDB 1 2).result.success
        = true
      ∧ cartQuantity (addToCart ⟨some "u", true, true, true, 9⟩ stockFiveDB 1
          2).db "u" 1 = some 5) :=
  ⟨(addToCart_combined_stock _ stockFiveDB 1 3 "u" ⟨1, "P", 1000, 5, true⟩
      ⟨1, "u", 1, 3⟩ rfl (by decide) (by decide) rfl (by decide) (by decide)
      rfl).1 (by decide),
   (addToCart_combined_stock _ stockFiveDB 1 2 "u" ⟨1, "P", 1000, 5, true⟩
      ⟨1, "u", 1, 3⟩ rfl (by decide) (by decide) rfl (by decide) (by decide)
      rfl).2 (by decide)⟩

/-- C7 counterexample: a gateway rejection whose body message happens to
equal the generic exception message yields a result identical to the
transport-failure (timeout) result, so the two outcomes are not
distinguishable by the caller. -/
theorem confirmPayment_timeout_indistinct_cex :
    (confirmPayment ⟨some "u", some "sk",
        .rejected (some "결제 승인 중 오류가 발생했습니다. 잠시 후 다시 시도해주세요."),
        true, "t"⟩ [sampleOrder] "pk" 1 2500).result =
    (confirmPayment ⟨some "u", some "sk", .timeout, true, "t"⟩
        [sampleOrder] "pk" 1 2500).result := by
  decide

/-- C7 amended: whenever the gateway round-trip is reached, a
timeout/transport failure is caught and reported with the fixed generic
exception message and no order mutation, while a rejection with no body
message yields the fixed default rejection message; those two fixed
messages differ — but a rejection's message is in general taken verbatim
from the gateway body, and there is no dedicated timeout error kind. -/
theorem confirmPayment_timeout_vs_rejected (env : ConfirmEnv)
    (orders : List Order) (pk : String) (oid : Nat) (amt : Int)
    (uid sk : String) (order : Order)
    (hu : env.userId = some uid) (ho : findOrder orders uid oid = some order)
    (ha : order.total_amount = amt) (hk : env.secretKey = some sk) :
    (confirmPayment { env with gateway := .timeout } orders pk oid amt).result
        = ⟨false, "결제 승인 중 오류가 발생했습니다. 잠시 후 다시 시도해주세요."⟩
    ∧ (confirmPayment { env with gateway := .timeout } orders pk oid
        amt).orders = orders
    ∧ (confirmPayment { env with gateway := .rejected none } orders pk oid
        amt).result = ⟨false, "결제 승인에 실패했습니다."⟩
    ∧ (confirmPayment { env with gateway := .rejected m } orders pk oid
        amt).result.message = rejectionMessage m
    ∧ ("결제 승인 중 오류가 발생했습니다. 잠시 후 다시 시도해주세요." : String) ≠
        "결제 승인에 실패했습니다." := by
  have hc := (findOrder_some ho).2
  refine ⟨?_, ?_, ?_, ?_, by decide⟩ <;>
    simp [confirmPayment, getOrderById, hu, ho, hc, ha, hk, rejectionMessage]

/-- C7 amended witness: the concrete timeout run and no-message rejection
run on the sample order. -/
theorem confirmPayment_timeout_vs_rejected_witness :
    (confirmPayment ⟨some "u", some "sk", .timeout, true, "t"⟩ [sampleOrder]
        "pk" 1 2500).result =
      ⟨false, "결제 승인 중 오류가 발생했습니다. 잠시 후 다시 시도해주세요."⟩
    ∧ (confirmPayment ⟨some "u", some "sk", .rejected none, true, "t"⟩
        [sampleOrder] "pk" 1 2500).result = ⟨false, "결제 승인에 실패했습니다."⟩ :=
  ⟨(confirmPayment_timeout_vs_rejected ⟨some "u", some "sk", .timeout, true,
      "t"⟩ [sampleOrder] "pk" 1 2500 "u" "sk" sampleOrder rfl (by decide) rfl
      rfl (m := none)).1,
   (confirmPayment_timeout_vs_rejected ⟨some "u", some "sk", .timeout, true,
      "t"⟩ [sampleOrder] "pk" 1 2500 "u" "sk" sampleOrder rfl (by decide) rfl
      rfl (m := none)).2.2.1⟩

/-- C8: `cancelPayment` fails and leaves the store unchanged for any
status other than pending/confirmed; for pending/confirmed with a
succeeding write it succeeds and stores status `cancelled` with
`payment_status = cancelled`; and the shipped→cancelled transition the
payment path refuses is accepted by the order state machine
(`canUpdateOrderStatus` / `updateOrderStatus`). -/
theorem cancelPayment_status_gate (env : CancelEnv) (orders : List Order)
    (oid : Nat) (uid : String) (order : Order)
    (hu : env.userId = some uid) (ho : findOrder orders uid oid = some order) :
    (order.status ≠ .pending ∧ order.status ≠ .confirmed →
      (cancelPayment env orders oid).result.success = false
      ∧ (cancelPayment env orders oid).orders = orders)
    ∧ ((order.status = .pending ∨ order.status = .confirmed) →
      env.updateOk = true →
      (cancelPayment env orders oid).result.success = true
      ∧ findOrder (cancelPayment env orders oid).orders uid oid =
          some { order with status := .cancelled,
                            payment_status := some .cancelled })
    ∧ canUpdateOrderStatus .shipped .cancelled = true
    ∧ (∀ (env2 : UpdateEnv) orders2 oid2 uid2 order2,
        env2.userId = some uid2 →
        findOrder orders2 uid2 oid2 = some order2 →
        order2.status = .shipped → env2.updateOk = true →
        (updateOrderStatus env2 orders2 oid2 .cancelled).result.success
          = true) := by
  have hc := (findOrder_some ho).2
  refine ⟨?_, ?_, by decide, ?_⟩
  · intro h
    constructor <;>
      simp [cancelPayment, getOrderById, hu, ho, hc, h.1, h.2, bne_iff_ne]
  · intro hpc hupd
    constructor
    · rcases hpc with h | h <;>
        simp [cancelPayment, getOrderById, hu, ho, hc, h, hupd, bne_iff_ne]
    · have hred : (cancelPayment env orders oid).orders =
          updateOrders orders uid oid
            (fun o => { o with status := .cancelled,
                               payment_status := some .cancelled }) := by
        rcases hpc with h | h <;>
          simp [cancelPayment, getOrderById, hu, ho, hc, h, hupd, bne_iff_ne]
      rw [hred, findOrder_updateOrders
        (f := fun o => { o with status := .cancelled,
                                payment_status := some .cancelled })
        (fun o => ⟨rfl, rfl⟩), ho]
      rfl
  · intro env2 orders2 oid2 uid2 order2 hu2 ho2 hst hupd2
    simp [updateOrderStatus, hu2, ho2, hst, hupd2, canUpdateOrderStatus,
      canUpdateOrderStatus.allowedTransitions, beq_iff_eq]

/-- C8 witness: the shipped sample order cannot be cancelled through
`cancelPayment`, yet `updateOrderStatus` accepts shipped→cancelled. -/
theorem cancelPayment_status_gate_witness :
    (cancelPayment ⟨some "u", true⟩ [shippedOrder] 2).result.success = false
    ∧ (updateOrderStatus ⟨some "u", true⟩ [shippedOrder] 2
        .cancelled).result.success = true :=
  ⟨((cancelPayment_status_gate ⟨some "u", true⟩ [shippedOrder] 2 "u"
      shippedOrder rfl (by decide)).1 (by decide)).1,
   (cancelPayment_status_gate ⟨some "u", true⟩ [shippedOrder] 2 "u"
      shippedOrder rfl (by decide)).2.2.2 ⟨some "u", true⟩ [shippedOrder] 2
      "u" shippedOrder rfl (by decide) (by decide) rfl⟩

/-- C10: every order the owner-filtered fetch returns belongs to the
requesting user, so the explicit `order.clerk_id !== userId` re-check in
`requestPayment`, `confirmPayment` and `cancelPayment` never fires, and a
non-owner (no order with that id belongs to them) gets the not-found
outcome. -/
theorem ownership_recheck_dead :
    (∀ orders uid oid o, findOrder orders uid oid = some o → o.clerk_id = uid)
    ∧ (∀ env orders pk oid amt,
        (confirmPayment env orders pk oid amt).ownershipRejected = false)
    ∧ (∀ userId orders oid,
        (requestPayment userId orders oid).ownershipRejected = false)
    ∧ (∀ env orders oid,
        (cancelPayment env orders oid).ownershipRejected = false)
    ∧ (∀ env orders pk oid amt uid, env.userId = some uid →
        (∀ o ∈ orders, o.id = oid → o.clerk_id ≠ uid) →
        (confirmPayment env orders pk oid amt).result =
          ⟨false, "주문을 찾을 수 없습니다."⟩) := by
  refine ⟨fun orders uid oid o h => (findOrder_some h).2, ?_, ?_, ?_, ?_⟩
  · intro env orders pk oid amt
    cases henv : env.userId with
    | none => simp [confirmPayment, henv]
    | some uid =>
      cases hfo : findOrder orders uid oid with
      | none => simp [confirmPayment, getOrderById, henv, hfo]
      | some order =>
        have hc := (findOrder_some hfo).2
        by_cases hamt : order.total_amount = amt
        · cases hsk : env.secretKey with
          | none => simp [confirmPayment, getOrderById, henv, hfo, hc, hamt, hsk]
          | some sk =>
            cases hg : env.gateway <;> cases hupd : env.updateOk <;>
              simp [confirmPayment, getOrderById, henv, hfo, hc, hamt, hsk, hg,
                hupd]
        · simp [confirmPayment, getOrderById, henv, hfo, hc, bne_iff_ne, hamt]
  · intro userId orders oid
    cases henv : userId with
    | none => simp [requestPayment, henv]
    | some uid =>
      cases hfo : findOrder orders uid oid with
      | none => simp [requestPayment, getOrderById, hfo]
      | some order =>
        have hc := (findOrder_some hfo).2
        by_cases hps : order.payment_status = some PaymentStatus.success
        · simp [requestPayment, getOrderById, hfo, hc, hps]
        · by_cases hst : order.status = OrderStatus.pending <;>
            simp [requestPayment, getOrderById, hfo, hc, hps, hst,
              beq_iff_eq, bne_iff_ne]
  · intro env orders oid
    cases henv : env.userId with
    | none => simp [cancelPayment, henv]
    | some uid =>
      cases hfo : findOrder orders uid oid with
      | none => simp [cancelPayment, getOrderById, henv, hfo]
      | some order =>
        have hc := (findOrder_some hfo).2
        by_cases hp : order.status = OrderStatus.pending
        · cases hupd : env.updateOk <;>
            simp [cancelPayment, getOrderById, henv, hfo, hc, hp, hupd,
              bne_iff_ne]
        · by_cases hcf : order.status = OrderStatus.confirmed
          · cases hupd : env.updateOk <;>
              simp [cancelPayment, getOrderById, henv, hfo, hc, hcf, hupd,
                bne_iff_ne]
          · simp [cancelPayment, getOrderById, henv, hfo, hc, hp, hcf,
              bne_iff_ne]
  · intro env orders pk oid amt uid hu hno
    have hn : findOrder orders uid oid = none := by
      rw [findOrder, List.find?_eq_none]
      intro o ho
      simp only [Bool.and_eq_true, beq_iff_eq, not_and]
      exact fun h1 => by simpa [h1] using hno o ho h1
    simp [confirmPayment, getOrderById, hu, hn]

/-- C10 witness: a concrete confirm run never has the ownership branch
fire, and a different user confirming the sample order gets the
not-found result. -/
theorem ownership_recheck_dead_witness :
    (confirmPayment ⟨some "u", some "sk", .timeout, true, "t"⟩ [sampleOrder]
        "pk" 1 2500).ownershipRejected = false
    ∧ (confirmPayment ⟨some "v", some "sk", .timeout, true, "t"⟩ [sampleOrder]
        "pk" 1 2500).result = ⟨false, "주문을 찾을 수 없습니다."⟩ :=
  ⟨ownership_recheck_dead.2.1 _ _ _ _ _,
   ownership_recheck_dead.2.2.2.2 _ _ _ _ _ "v" rfl (by decide)⟩

end Shop
